import Mathlib

/-!
Formal model of the `video_analysis` backend's risk-consensus layer: the
grade arithmetic and both aggregator implementations
(`backend/models/risk_assessor.py` and `backend/pipeline.py`), the
heuristic screeners, the extraction selector, the burn-risk scorer, and
the pipeline start guard (`backend/store.py`, `backend/app.py`).

Modelling conventions: Python text is `List Char` (string literals that are
only compared or stored stay `String`); Python dict values that may be
absent are `Option`; Python floats are exact rationals `ℚ` built with
`mkRat` (every constant involved — 0.05 = 1/20, 4.5 = 9/2, 0.75 = 3/4, … —
is exactly representable); fallible code returns `Option`/`Except`.
-/

/-! ## Python-semantics helpers -/

/-- Python truthiness of an optional string: `None` and `""` are falsy. -/
def truthyS : Option String → Bool
  | none => false
  | some s => s != ""

/-- Python `x or d` for an optional integer `x` (`0` is falsy, as in Python;
the taxonomy loader never produces a risk of `0`, but the model keeps the
exact semantics). -/
def pyOrI (x : Option Int) (d : Int) : Int :=
  match x with
  | some v => if v = 0 then d else v
  | none => d

/-- Model of Python `str.strip`: drop whitespace from both ends. -/
def pystrip (l : List Char) : List Char :=
  ((l.dropWhile Char.isWhitespace).reverse.dropWhile Char.isWhitespace).reverse

/-- Model of Python `str.strip` on `String` values. -/
def pystripS (s : String) : String :=
  String.mk (pystrip s.data)

/-- Model of Python `str.split()` with no argument: split on runs of
whitespace, discarding empty pieces. -/
def pysplit (l : List Char) : List (List Char) :=
  match l with
  | [] => []
  | c :: cs =>
    if c.isWhitespace then pysplit cs
    else (c :: cs.takeWhile (fun d => !d.isWhitespace)) ::
      pysplit (cs.dropWhile (fun d => !d.isWhitespace))
termination_by l.length
decreasing_by
  · simp only [List.length_cons]; omega
  · have hd : (cs.dropWhile (fun d => !d.isWhitespace)).length ≤ cs.length := by
      induction cs with
      | nil => simp [List.dropWhile]
      | cons a l ih =>
        by_cases h : (!a.isWhitespace) = true
        all_goals simp [List.dropWhile, h]
        all_goals omega
    simp only [List.length_cons]; omega

/-- Order-preserving deduplication, worker: skip values already seen. -/
def first_uniques_aux (seen : List String) : List String → List String
  | [] => []
  | x :: xs =>
    if x ∈ seen then first_uniques_aux seen xs
    else x :: first_uniques_aux (seen ++ [x]) xs

/-- Order-preserving deduplication keeping the first occurrence of each
value (Python `dict`/`Counter` key order, and the model of set contents
listed by first appearance). -/
def first_uniques (l : List String) : List String :=
  first_uniques_aux [] l

/-- Model of `collections.Counter.most_common(1)`: the value with the
highest multiplicity, earliest first occurrence winning ties (Python's
`Counter` preserves insertion order and `most_common` sorts stably). -/
def counter_most_common (l : List String) : Option String :=
  (first_uniques l).foldl
    (fun best x =>
      match best with
      | none => some x
      | some b => if l.count x > l.count b then some x else best)
    none

/-- Stable insertion used by `pysorted` (inserts after existing equal keys). -/
def py_insort {α : Type} (le : α → α → Bool) (x : α) : List α → List α
  | [] => [x]
  | y :: ys => if le y x then y :: py_insort le x ys else x :: y :: ys

/-- Model of Python `sorted` with a key function folded into `le`: a stable
ascending sort. -/
def pysorted {α : Type} (le : α → α → Bool) (l : List α) : List α :=
  l.foldl (fun acc x => py_insort le x acc) []

/-- Python `round` on an exact value: round half to even (banker's
rounding), computed on the numerator/denominator (`x - ⌊x⌋ < 1/2` is
`2r < d` for the floor remainder `r`). -/
def round_half_even (x : ℚ) : ℤ :=
  let d : ℤ := (x.den : ℤ)
  let f : ℤ := Int.fdiv x.num d
  let r : ℤ := x.num - f * d
  if 2 * r < d then f
  else if 2 * r > d then f + 1
  else if f % 2 = 0 then f else f + 1

/-- Model of Python `round(x, 2)`: `round_half_even (x * 100) / 100` as an
exact rational. -/
def py_round2 (x : ℚ) : ℚ :=
  mkRat (round_half_even (mkRat (x.num * 100) x.den)) 100

/-- Model of Python `f"{x:.2f}"` display formatting on an exact value. -/
def fmt2 (q : ℚ) : String :=
  let cents : Int := round_half_even (mkRat (q.num * 100) q.den)
  let sign := if cents < 0 then "-" else ""
  let a := cents.natAbs
  let whole := a / 100
  let frac := a % 100
  let pad := if frac < 10 then "0" else ""
  s!"{sign}{whole}.{pad}{frac}"

/-- Python minimum of the distinct integers of a non-empty list
(`min(risks)`); `0` is returned for `[]`, which callers rule out. -/
def list_min_int : List Int → Int
  | [] => 0
  | x :: xs => xs.foldl min x

/-- Python maximum of a non-empty integer list (`max(risks)`). -/
def list_max_int : List Int → Int
  | [] => 0
  | x :: xs => xs.foldl max x

/-! ## Grade arithmetic (`risk_assessor.py` lines 23–43) -/

/-- The dict `GRADE_SCORE_MAP = {"A": 1, "B": 2, "C": 3, "D": 4, "E": 5}`
with `.get(grade, 0)` folded in. -/
def GRADE_SCORE_MAP (s : String) : Nat :=
  if s = "A" then 1
  else if s = "B" then 2
  else if s = "C" then 3
  else if s = "D" then 4
  else if s = "E" then 5
  else 0

/-- `_grade_to_score`: falsy grades score 0, otherwise the map lookup. -/
def grade_to_score (g : Option String) : Nat :=
  match g with
  | none => 0
  | some s => if s = "" then 0 else GRADE_SCORE_MAP s

/-- `_score_to_grade`: thresholds at 4.5/3.5/2.5/1.5/0, out-of-range
scores collapse to `"N/A"`. -/
def score_to_grade (score : ℚ) : String :=
  if score ≥ mkRat 9 2 then "E"
  else if score ≥ mkRat 7 2 then "D"
  else if score ≥ mkRat 5 2 then "C"
  else if score ≥ mkRat 3 2 then "B"
  else if score > mkRat 0 1 then "A"
  else "N/A"

/-- `worst_grade` (local to `_aggregate_risk_results`): the grade of the
maximal score, `max(..., default=0)` modelled by `foldl max 0`. -/
def worst_grade (values : List String) : String :=
  score_to_grade (mkRat (Int.ofNat ((values.map (fun v => grade_to_score (some v))).foldl max 0)) 1)

/-- `_risk_grade`: burn-risk weight to grade (scale inverted: low weight =
high danger). -/
def risk_grade (value : ℚ) : String :=
  if value ≤ mkRat 3 2 then "E"
  else if value ≤ mkRat 5 2 then "D"
  else if value ≤ mkRat 7 2 then "C"
  else if value ≤ mkRat 9 2 then "B"
  else "A"

/-- `_risk_label`: burn-risk weight to Japanese danger label. -/
def risk_label (value : ℚ) : String :=
  if value ≤ mkRat 3 2 then "炎上リスク 極めて高い"
  else if value ≤ mkRat 5 2 then "炎上リスク 高い"
  else if value ≤ mkRat 7 2 then "炎上リスク 中程度"
  else if value ≤ mkRat 9 2 then "炎上リスク やや低い"
  else "炎上リスク 非常に低い"

/-! ## Data model (risk-judgement payload shapes, `spec.md` §3) -/

/-- A sub-tag entry of a risk tag (`related_sub_tags[]` element). -/
structure SubRiskTag where
  name : String
  grade : Option String
  reason : Option String
  detected_text : Option String
  detected_timecode : Option String
  risk_level : Option Int
deriving DecidableEq, Repr

/-- A risk tag as produced by a judgement run or a screener. -/
structure RiskTag where
  name : String
  grade : Option String
  reason : Option String
  detected_text : Option String
  detected_timecode : Option String
  risk_level : Option Int
  related_sub_tags : List SubRiskTag
deriving DecidableEq, Repr

/-- A finding (`{timecode, detail}`). -/
structure RiskFinding where
  timecode : String
  detail : String
deriving DecidableEq, Repr

/-- The `social` section of one judgement run. -/
structure SocialSection where
  grade : Option String
  reason : Option String
  findings : List RiskFinding
deriving DecidableEq, Repr

/-- The `legal` section of one judgement run (the `violations` and
`recommendations` keys are carried through aggregation untouched and are
not referenced by any property here, so they are not modelled). -/
structure LegalSection where
  grade : Option String
  reason : Option String
  findings : List RiskFinding
deriving DecidableEq, Repr

/-- One risk-judgement run (`RiskAssessmentResult`); `matrix` is copied
through aggregation untouched and is not modelled. -/
structure RiskResult where
  social : Option SocialSection
  legal : Option LegalSection
  tags : List RiskTag
deriving DecidableEq, Repr

/-- A taxonomy sub-tag (`_load_tag_structure` rows inside a 定義 block). -/
structure SubTagDef where
  name : String
  definition : List Char
  risk : Option Int
deriving DecidableEq, Repr

/-- A top-level taxonomy tag. -/
structure TagDef where
  name : String
  definition : List Char
  risk : Option Int
  sub_tags : List SubTagDef
deriving DecidableEq, Repr

/-- One row of the historical incident corpus (`case_reference_rows`),
fields already passed through `str(... or "")`. -/
structure CaseRecord where
  trigger : String
  tag1 : String
  sub_tag : String
deriving DecidableEq, Repr

/-- One flattened tag-definition entry (`tag_definition_entries`). -/
structure TagDefEntry where
  name : String
  definition : String
  etype : String
  parent : Option String
deriving DecidableEq, Repr

/-! ## Keyword scan (`RiskAssessor._scan_tag_matches`, lines 343–405) -/

/-- Lowercase a text, modelling `str.lower`. -/
def lower (l : List Char) : List Char :=
  l.map Char.toLower

/-- The separator replacement in `extract_keywords`:
`definition.replace("/", " ").replace("|", " ").replace(",", " ")`. -/
def sep_to_space (c : Char) : Char :=
  if c = '/' ∨ c = '|' ∨ c = ',' then ' ' else c

/-- `extract_keywords`: replace separators by spaces, split on whitespace,
keep non-empty tokens. -/
def extract_keywords (definition : List Char) : List (List Char) :=
  (pysplit (definition.map sep_to_space)).filter (fun t => !t.isEmpty)

/-- `find_keyword`: the first keyword that is truthy and whose lowercase
form is a substring of the (already lowercased) combined text. -/
def find_keyword (combined : List Char) (keywords : List (List Char)) : Option (List Char) :=
  keywords.find? (fun kw => !kw.isEmpty && decide (lower kw <:+: combined))

/-- Reason string for a matched sub-tag keyword. -/
def kw_sub_reason (kw : List Char) : String :=
  let k := String.mk kw
  s!"キーワード『{k}』が検出されました。"

/-- Reason string for a matched tag (keyword or sub-tag hit). -/
def kw_tag_reason (hit : Option (List Char)) : String :=
  let k := match hit with
    | some kw => String.mk kw
    | none => "（サブタグ検出）"
  s!"キーワード『{k}』が検出されたため。"

/-- Scan one sub-tag of the taxonomy against the combined text. -/
def scan_sub_entry (combined : List Char) (tagRisk : Option Int) (sub : SubTagDef) :
    Option SubRiskTag :=
  let sub_hit := find_keyword combined (extract_keywords sub.definition)
  match sub_hit with
  | some kw =>
    if sub.name ≠ "" then
      some { name := sub.name
           , grade := some (risk_grade (mkRat (pyOrI sub.risk (pyOrI tagRisk 3)) 1))
           , reason := some (kw_sub_reason kw)
           , detected_text := some (String.mk kw)
           , detected_timecode := some "N/A"
           , risk_level := none }
    else none
  | none => none

/-- Scan one taxonomy tag (and its sub-tags) against the combined text. -/
def scan_tag_entry (combined : List Char) (tag : TagDef) : Option RiskTag :=
  let keywords := extract_keywords tag.definition
  let keyword_hit := find_keyword combined keywords
  let related := tag.sub_tags.filterMap (scan_sub_entry combined tag.risk)
  if tag.name ≠ "" ∧ (keyword_hit.isSome ∨ related ≠ []) then
    some { name := tag.name
         , grade := some (risk_grade (mkRat (pyOrI tag.risk 3) 1))
         , reason := some (if keyword_hit.isSome ∨ related ≠ []
             then kw_tag_reason keyword_hit
             else String.mk tag.definition)
         , detected_text := some (match keyword_hit with
             | some kw => String.mk kw
             | none => match related.head? with
               | some m => m.detected_text.getD ""
               | none => "")
         , detected_timecode := some "N/A"
         , risk_level := none
         , related_sub_tags := related }
  else none

/-- The scan body once the combined text has been built and lowercased. -/
def scan_core (tag_structure : List TagDef) (combined : List Char) : List RiskTag :=
  tag_structure.filterMap (scan_tag_entry combined)

/-- `RiskAssessor._scan_tag_matches`: keyword scan over
`f"{transcript}\n{ocr_text}".lower()`. -/
def scan_tag_matches (tag_structure : List TagDef) (transcript ocr_text : List Char) :
    List RiskTag :=
  scan_core tag_structure (lower (transcript ++ '\n' :: ocr_text))

/-! ## Similarity screen (`RiskAssessor._screen_with_cases`, lines 407–532)

The `difflib.SequenceMatcher(None, combined_lower, target.lower()).ratio()`
call is Python-stdlib code outside this repository; it is modelled as an
oracle `sim : String → ℚ` giving the ratio of the (fixed) combined text
against each reference string, universally quantified in the theorems. -/

/-- `ratio_to_grade` (local helper of `_screen_with_cases`). -/
def ratio_to_grade (value : ℚ) : String :=
  if value > mkRat 3 4 then "E"
  else if value > mkRat 3 5 then "D"
  else if value > mkRat 9 20 then "C"
  else if value > mkRat 3 10 then "B"
  else "A"

/-- `snippet` (local helper): strip and truncate to 48 characters. -/
def snippet (value : String) : String :=
  let text := pystripS value
  if text.length ≤ 48 then text
  else String.mk (text.data.take 48) ++ "..."

/-- Reason string for an incident-record match. -/
def case_reason (trigger : String) (ratio : ℚ) : String :=
  let sn := snippet trigger
  let r := fmt2 ratio
  s!"過去事例の発火要因『{sn}』と類似度={r}。"

/-- Reason string for the sub-tag attached to an incident-record match. -/
def case_sub_reason (sub_tag : String) (ratio : ℚ) : String :=
  let r := fmt2 ratio
  s!"細分化タグ『{sub_tag}』が同事例で指摘 (類似度={r})。"

/-- Reason string for a tag-definition similarity match. -/
def tagdef_reason (definition : String) (ratio : ℚ) : String :=
  let sn := snippet definition
  let r := fmt2 ratio
  s!"タグ定義『{sn}』とコンテンツの類似度={r}。"

/-- Reason string for a sub-tag-definition similarity match. -/
def subdef_reason (tag_name : String) (ratio : ℚ) : String :=
  let r := fmt2 ratio
  s!"サブタグ『{tag_name}』の定義と類似度={r}。"

/-- Reason string for the sub-tag payload of a sub-tag-definition match. -/
def subdef_sub_reason (ratio : ℚ) : String :=
  let r := fmt2 ratio
  s!"定義一致 (類似度={r})"

/-- The incident-corpus loop of `_screen_with_cases` (lines 446–476). -/
def screen_case_matches (sim : String → ℚ) (cases : List CaseRecord) : List RiskTag :=
  cases.filterMap (fun record =>
    let trigger := pystripS record.trigger
    if trigger = "" then none
    else
      let ratio := sim trigger
      let grade := ratio_to_grade ratio
      if grade = "C" ∨ grade = "D" ∨ grade = "E" then
        let tag_name := if pystripS record.tag1 = "" then "炎上事例" else pystripS record.tag1
        let sub_tag := pystripS record.sub_tag
        some { name := tag_name
             , grade := some grade
             , reason := some (case_reason trigger ratio)
             , detected_text := some trigger
             , detected_timecode := some "N/A"
             , risk_level := none
             , related_sub_tags :=
                 if sub_tag = "" then []
                 else [ { name := sub_tag
                        , grade := some grade
                        , reason := some (case_sub_reason sub_tag ratio)
                        , detected_text := some trigger
                        , detected_timecode := some "N/A"
                        , risk_level := none } ] }
      else none)

/-- The tag-definition loop of `_screen_with_cases` (lines 478–517). -/
def screen_tagdef_matches (sim : String → ℚ) (entries : List TagDefEntry) : List RiskTag :=
  entries.filterMap (fun entry =>
    let definition := pystripS entry.definition
    let tag_name := pystripS entry.name
    if definition = "" ∨ tag_name = "" then none
    else
      let ratio := sim definition
      if ratio ≤ mkRat 11 20 then none
      else
        let grade0 := ratio_to_grade ratio
        let grade := if grade0 = "C" ∨ grade0 = "D" ∨ grade0 = "E" then grade0 else "C"
        let is_subtag := entry.etype = "subtag"
        let parent := if is_subtag ∧ ¬ (truthyS entry.parent = true)
          then some tag_name else entry.parent
        let base_reason := if ¬ is_subtag
          then tagdef_reason definition ratio
          else subdef_reason tag_name ratio
        some { name := if is_subtag then parent.getD "" else tag_name
             , grade := some grade
             , reason := some base_reason
             , detected_text := some definition
             , detected_timecode := some "N/A"
             , risk_level := none
             , related_sub_tags :=
                 if is_subtag then
                   [ { name := tag_name
                     , grade := some grade
                     , reason := some (subdef_sub_reason ratio)
                     , detected_text := some definition
                     , detected_timecode := some "N/A"
                     , risk_level := none } ]
                 else [] })

/-- `RiskAssessor._screen_with_cases`: similarity scan over the incident
corpus and the flattened tag definitions. -/
def screen_with_cases (transcript ocr_text : List Char) (sim : String → ℚ)
    (cases : List CaseRecord) (entries : List TagDefEntry) : List RiskTag :=
  if cases.isEmpty && entries.isEmpty then []
  else
    let combined := pystrip (transcript ++ '\n' :: ocr_text)
    if combined.isEmpty then []
    else screen_case_matches sim cases ++ screen_tagdef_matches sim entries

/-! ## Extraction selector (`AnalysisPipeline._select_best_transcription` /
`_select_best_ocr`, `pipeline.py` lines 876–957)

The Gemini arbitration reply is external; it is modelled as an oracle
`gemini_choice : Option Int` (`none` = the call or the reply parse failed).
The result is the index of the chosen run (1 or 2) paired with a flag that
is `true` exactly when the AI-arbitration branch was entered. -/

/-- The 5 % relative length-difference test
`abs(len1 - len2) / max(len1, len2, 1) < 0.05` on exact rationals. -/
def close_lengths (len1 len2 : Nat) : Bool :=
  decide (mkRat (Int.ofNat ((len1 : Int) - (len2 : Int)).natAbs) (max len1 (max len2 1)) < mkRat 1 20)

/-- `_select_best_transcription` reduced to its decision logic. -/
def select_best_transcription (transcript_1 transcript_2 : List Char)
    (gemini_choice : Option Int) : Nat × Bool :=
  let len1 := (pystrip transcript_1).length
  let len2 := (pystrip transcript_2).length
  if close_lengths len1 len2 then (1, false)
  else
    match gemini_choice with
    | some choice => (if choice = 1 then 1 else 2, true)
    | none => (if len1 ≥ len2 then 1 else 2, true)

/-- `_select_best_ocr` reduced to its decision logic (same shape as the
transcription selector in the source). -/
def select_best_ocr (ocr_1 ocr_2 : List Char) (gemini_choice : Option Int) : Nat × Bool :=
  let len1 := (pystrip ocr_1).length
  let len2 := (pystrip ocr_2).length
  if close_lengths len1 len2 then (1, false)
  else
    match gemini_choice with
    | some choice => (if choice = 1 then 1 else 2, true)
    | none => (if len1 ≥ len2 then 1 else 2, true)

/-! ## Burn-risk scorer (`RiskAssessor.calculate_burn_risk`, lines 878–976) -/

/-- One entry of the burn-risk `details` list. -/
structure BurnEntry where
  name : String
  risk : Int
  label : String
  etype : String
  detected_text : Option String
  reason : Option String
  parent_tag : Option String
deriving DecidableEq, Repr

/-- The burn-risk profile: the empty `{"count": 0, "details": []}` payload
or a full profile. -/
inductive BurnRisk where
  | emptyProfile
  | profile (count : Nat) (average : ℚ) (grade : String) (label : String)
      (mn mx : Int) (details : List BurnEntry)
deriving DecidableEq, Repr

/-- `_clean_text`: strip, with falsy results collapsed to `None`. -/
def clean_text (value : Option String) : Option String :=
  value.bind (fun s =>
    let text := pystripS s
    if text = "" then none else some text)

/-- `_register`: append one entry unless its risk is unresolved or its
`(type, name)` key was already seen. -/
def burn_register (acc : List BurnEntry × List String) (name : Option String)
    (risk : Option Int) (etype : String) (detected_text reason parent_tag : Option String) :
    List BurnEntry × List String :=
  match risk with
  | none => acc
  | some r =>
    let display := match clean_text name with
      | some t => t
      | none => etype.toUpper ++ "_" ++ toString (acc.1.length + 1)
    let key := etype ++ ":" ++ display
    if key ∈ acc.2 then acc
    else
      (acc.1 ++ [ { name := display
                  , risk := r
                  , label := risk_label (mkRat r 1)
                  , etype := etype
                  , detected_text := clean_text detected_text
                  , reason := clean_text reason
                  , parent_tag := if etype = "subtag" then clean_text parent_tag else none } ]
      , acc.2 ++ [key])

/-- The per-tag body of `calculate_burn_risk`: register the tag, then its
sub-tags (risk from the run-time `risk_level` annotation, else the
taxonomy lookup). -/
def burn_collect (risk_map : String → Option Int) (acc : List BurnEntry × List String)
    (tag : RiskTag) : List BurnEntry × List String :=
  let tag_name := clean_text (some tag.name)
  let tag_risk := match tag.risk_level with
    | some r => some r
    | none => match tag_name with
      | some n => risk_map n
      | none => none
  let acc1 := burn_register acc tag_name tag_risk "tag" tag.detected_text tag.reason none
  tag.related_sub_tags.foldl
    (fun a sub =>
      let sub_name := clean_text (some sub.name)
      let sub_risk := match sub.risk_level with
        | some r => some r
        | none => match sub_name with
          | some n => risk_map n
          | none => none
      burn_register a sub_name sub_risk "subtag"
        (match clean_text sub.detected_text with
          | some t => some t
          | none => clean_text tag.detected_text)
        (match clean_text sub.reason with
          | some t => some t
          | none => clean_text tag.reason)
        tag_name)
    acc1

/-- `RiskAssessor.calculate_burn_risk`: collect weighted entries, then the
mean/grade/label/min/max profile with `details` sorted ascending by
weight. -/
def calculate_burn_risk (risk_map : String → Option Int) (tags : List RiskTag) : BurnRisk :=
  if tags.isEmpty then BurnRisk.emptyProfile
  else
    let risk_entries := (tags.foldl (burn_collect risk_map) ([], [])).1
    if risk_entries.isEmpty then BurnRisk.emptyProfile
    else
      let risks := risk_entries.map (fun e => e.risk)
      let avg : ℚ := mkRat (risks.foldl (· + ·) 0) risks.length
      BurnRisk.profile risk_entries.length (py_round2 avg) (risk_grade avg) (risk_label avg)
        (list_min_int risks) (list_max_int risks)
        (pysorted (fun a b => a.risk ≤ b.risk) risk_entries)

/-! ## RiskAssessor aggregator (`RiskAssessor._aggregate_risk_results`,
lines 534–693, and `aggregate_runs`, lines 695–700) -/

/-- An aggregated `social`/`legal` section: the run-1 dict copied, with
`grade`/`reason` possibly overridden (`findings = none` models the empty
dict used when run 1 has no such section, which carries no `findings`
key). -/
structure MergedSection where
  grade : Option String
  reason : Option String
  findings : Option (List RiskFinding)
deriving DecidableEq, Repr

/-- An aggregated sub-tag (dict literal at lines 667–676). -/
structure MergedSubTag where
  name : String
  grade : String
  reason : String
  detected_text : String
  detected_timecode : Option String
  detected_source : Option String
deriving DecidableEq, Repr

/-- An aggregated tag (dict literal at lines 677–687). -/
structure MergedTag where
  name : String
  grade : String
  reason : String
  detected_text : String
  detected_timecode : Option String
  detected_source : Option String
  related_sub_tags : List MergedSubTag
deriving DecidableEq, Repr

/-- The aggregated result (`base_results[0].copy()` with `social`, `legal`
and `tags` overridden; untouched copied keys are not modelled). -/
structure AggResult where
  social : MergedSection
  legal : MergedSection
  tags : List MergedTag
deriving DecidableEq, Repr

/-- A sub-tag bucket (`sub_bucket` dict, lines 629–638). -/
structure SubBucket where
  scores : List Nat
  reasons : List String
  detected : List String
  timecodes : List String
deriving DecidableEq, Repr

/-- A tag bucket (`get_tag_bucket` dict, lines 598–610). -/
structure TagBucket where
  scores : List Nat
  reasons : List String
  detected : List String
  timecodes : List String
  subs : List (String × SubBucket)
deriving DecidableEq, Repr

/-- Update-or-append in an insertion-ordered association list (the model of
`dict.setdefault` on Python's order-preserving dicts). -/
def upd_assoc {β : Type} (key : String) (dflt : β) (f : β → β) :
    List (String × β) → List (String × β)
  | [] => [(key, f dflt)]
  | (n, v) :: rest =>
    if n = key then (n, f v) :: rest else (n, v) :: upd_assoc key dflt f rest

/-- Append an optional value when truthy (the `if payload.get(k):` pattern
guarding each bucket append). -/
def push_truthy (l : List String) (v : Option String) : List String :=
  match v with
  | some s => if s = "" then l else l ++ [s]
  | none => l

/-- Fold one sub-tag payload into a sub-bucket. -/
def ingest_sub (b : SubBucket) (sub : SubRiskTag) : SubBucket :=
  { scores := b.scores ++ [grade_to_score sub.grade]
  , reasons := push_truthy b.reasons sub.reason
  , detected := push_truthy b.detected sub.detected_text
  , timecodes := push_truthy b.timecodes sub.detected_timecode }

/-- `ingest_tag` (lines 612–645): fold one tag payload into the ordered
bucket map, skipping falsy names. -/
def ingest_tag (buckets : List (String × TagBucket)) (t : RiskTag) :
    List (String × TagBucket) :=
  if t.name = "" then buckets
  else
    upd_assoc t.name ⟨[], [], [], [], []⟩
      (fun b =>
        let b1 : TagBucket :=
          { scores := b.scores ++ [grade_to_score t.grade]
          , reasons := push_truthy b.reasons t.reason
          , detected := push_truthy b.detected t.detected_text
          , timecodes := push_truthy b.timecodes t.detected_timecode
          , subs := b.subs }
        { b1 with subs := (t.related_sub_tags.foldl
            (fun subs sub =>
              if sub.name = "" then subs
              else upd_assoc sub.name ⟨[], [], [], []⟩ (fun sb => ingest_sub sb sub) subs)
            b1.subs) })
      buckets

/-- `determine_source` (lines 545–570): locate a detected text in the
transcript, the OCR text or the video-summary segment descriptions (a
segment is modelled by its `description`). -/
def determine_source (transcript ocr_text : List Char)
    (video_summary : Option (List String)) (detected_text : String) : Option String :=
  if detected_text = "" then none
  else
    let detected_lower := lower detected_text.data
    if transcript ≠ [] ∧ detected_lower <:+: lower transcript then some "transcript"
    else if ocr_text ≠ [] ∧ detected_lower <:+: lower ocr_text then some "ocr"
    else
      match video_summary with
      | some segments =>
        if segments.any (fun description => decide (detected_lower <:+: lower description.data))
        then some "visual" else none
      | none => none

/-- Collapse one sub-bucket into its output payload. -/
def sub_bucket_out (src : String → Option String) (p : String × SubBucket) : MergedSubTag :=
  let sb := p.2
  let sub_detected := (sb.detected.headI : String)
  { name := p.1
  , grade := score_to_grade (mkRat (Int.ofNat (sb.scores.foldl max 0)) 1)
  , reason := (counter_most_common sb.reasons).getD ""
  , detected_text := sub_detected
  , detected_timecode := sb.timecodes.head?
  , detected_source := src sub_detected }

/-- Collapse one tag bucket into its output payload. -/
def tag_bucket_out (src : String → Option String) (p : String × TagBucket) : MergedTag :=
  let b := p.2
  let detected_text := (b.detected.headI : String)
  { name := p.1
  , grade := score_to_grade (mkRat (Int.ofNat (b.scores.foldl max 0)) 1)
  , reason := (counter_most_common b.reasons).getD ""
  , detected_text := detected_text
  , detected_timecode := b.timecodes.head?
  , detected_source := src detected_text
  , related_sub_tags := b.subs.map (sub_bucket_out src) }

/-- The truthiness filter `[grade for grade in grades if grade]`. -/
def truthy_grades (grades : List (Option String)) : List String :=
  grades.filterMap (fun g =>
    match g with
    | some s => if s = "" then none else some s
    | none => none)

/-- The reason collection of `merge_reason` (truthy reasons of present
sections, in run order). -/
def section_reasons (sections : List (Option (Option String × Option String))) : List String :=
  sections.filterMap (fun s =>
    match s with
    | some (_, some r) => if r = "" then none else some r
    | _ => none)

/-- `RiskAssessor._aggregate_risk_results`: `none` models the `IndexError`
the source would raise on an empty run list (`base_results[0]`). -/
def aggregate_risk_results (base_results : List RiskResult) (keyword_matches : List RiskTag)
    (transcript ocr_text : List Char) (video_summary : Option (List String)) :
    Option AggResult :=
  match base_results with
  | [] => none
  | r0 :: _ =>
    let src := determine_source transcript ocr_text video_summary
    let social_grades := base_results.filterMap (fun res => res.social.map (fun s => s.grade))
    let legal_grades := base_results.filterMap (fun res => res.legal.map (fun s => s.grade))
    let social_base : MergedSection := match r0.social with
      | some s => ⟨s.grade, s.reason, some s.findings⟩
      | none => ⟨none, none, none⟩
    let legal_base : MergedSection := match r0.legal with
      | some s => ⟨s.grade, s.reason, some s.findings⟩
      | none => ⟨none, none, none⟩
    let social_reason := counter_most_common (section_reasons
      (base_results.map (fun res => res.social.map (fun s => (s.grade, s.reason)))))
    let legal_reason := counter_most_common (section_reasons
      (base_results.map (fun res => res.legal.map (fun s => (s.grade, s.reason)))))
    let merged_social : MergedSection :=
      { grade := if social_grades.isEmpty then social_base.grade
          else some (worst_grade (truthy_grades social_grades))
      , reason := match social_reason with
          | some r => some r
          | none => social_base.reason
      , findings := social_base.findings }
    let merged_legal : MergedSection :=
      { grade := if legal_grades.isEmpty then legal_base.grade
          else some (worst_grade (truthy_grades legal_grades))
      , reason := match legal_reason with
          | some r => some r
          | none => legal_base.reason
      , findings := legal_base.findings }
    let buckets0 := base_results.foldl (fun bs res => res.tags.foldl ingest_tag bs) []
    let buckets := keyword_matches.foldl ingest_tag buckets0
    some { social := merged_social
         , legal := merged_legal
         , tags := buckets.map (tag_bucket_out src) }

/-- The value `RiskAssessor.aggregate_runs` returns: the empty dict for an
empty run list, else the aggregated result. -/
inductive AggregateRunsOutcome where
  | emptyDict
  | result (r : AggResult)
deriving DecidableEq, Repr

/-- `RiskAssessor.aggregate_runs` (lines 695–700): guard the empty list,
then `_aggregate_risk_results(runs, [])` with default `transcript`/
`ocr_text`/`video_summary`; `none` would model an uncaught exception. -/
def aggregate_runs (runs : List RiskResult) : Option AggregateRunsOutcome :=
  if runs.isEmpty then some AggregateRunsOutcome.emptyDict
  else (aggregate_risk_results runs [] [] [] none).map AggregateRunsOutcome.result

/-! ## Pipeline aggregator (`AnalysisPipeline._aggregate_risk_results`,
`pipeline.py` lines 213–282) -/

/-- The aggregated payload built by the pipeline's hybrid strategy (the
`matrix` key, copied from the selected run or defaulted, is not
modelled). -/
structure PipeAggResult where
  social : Option SocialSection
  legal : Option LegalSection
  tags : List RiskTag
  burn_risk : BurnRisk
deriving DecidableEq, Repr

/-- The pipeline's social-grade priority dict
`{"S": 0, "A": 1, "B": 2, "C": 3}` with `.get(g, 99)` folded in
(`None` is not a key, hence also 99). -/
def social_priority (g : Option String) : Nat :=
  match g with
  | some s =>
    if s = "S" then 0
    else if s = "A" then 1
    else if s = "B" then 2
    else if s = "C" then 3
    else 99
  | none => 99

/-- The pipeline's legal-grade priority dict
`{"抵触する": 0, "抵触する可能性がある": 1, "抵触しない": 2}` with
`.get(g, 99)` folded in. -/
def legal_priority (g : Option String) : Nat :=
  match g with
  | some s =>
    if s = "抵触する" then 0
    else if s = "抵触する可能性がある" then 1
    else if s = "抵触しない" then 2
    else 99
  | none => 99

/-- The tag-vote priority `grade_priority.get(t.get("grade", "C"), 99)`:
a missing grade defaults to `"C"` before the lookup. -/
def tag_grade_priority (g : Option String) : Nat :=
  match g with
  | some s => social_priority (some s)
  | none => social_priority (some "C")

/-- Python `min(x :: xs, key=f)`: the earliest element with minimal key. -/
def first_min_by {α : Type} (f : α → Nat) (x : α) (xs : List α) : α :=
  xs.foldl (fun b y => if f y < f b then y else b) x

/-- The social grade of a run as the pipeline reads it
(`result.get("social", {}).get("grade")`). -/
def run_social_grade (r : RiskResult) : Option String :=
  match r.social with
  | some s => s.grade
  | none => none

/-- The legal grade of a run as the pipeline reads it. -/
def run_legal_grade (r : RiskResult) : Option String :=
  match r.legal with
  | some s => s.grade
  | none => none

/-- The dead value `detected_phrases_set` of lines 260–268: every truthy finding `detail`
across all runs' social and legal findings, deduplicated (first occurrence
listed first; Python uses a `set`, so only the membership is meaningful).
The source computes this value and never attaches it to the aggregated
result. -/
def pipeline_detected_details (risk_results : List RiskResult) : List String :=
  first_uniques (risk_results.foldl
    (fun acc r =>
      let social_findings := match r.social with
        | some s => s.findings
        | none => []
      let legal_findings := match r.legal with
        | some s => s.findings
        | none => []
      acc ++ ((social_findings ++ legal_findings).filterMap
        (fun f => if f.detail = "" then none else some f.detail)))
    [])

/-- `AnalysisPipeline._aggregate_risk_results` (lines 213–282): pick the
run carrying the "most severe" grade under the stale priority maps, vote
tags by a two-run quorum with the same stale priority, and recompute the
burn risk over the consensus tags. -/
def pipeline_aggregate (risk_map : String → Option Int) (risk_results : List RiskResult) :
    PipeAggResult :=
  let social_grades := risk_results.filterMap
    (fun r => r.social.map (fun s => s.grade))
  let legal_grades := risk_results.filterMap
    (fun r => r.legal.map (fun s => s.grade))
  let most_severe_social : Option String := match social_grades with
    | [] => some "C"
    | g :: gs => first_min_by social_priority g gs
  let most_severe_legal : Option String := match legal_grades with
    | [] => some "抵触する可能性がある"
    | g :: gs => first_min_by legal_priority g gs
  let selected : RiskResult :=
    match risk_results.find? (fun r =>
        run_social_grade r == most_severe_social || run_legal_grade r == most_severe_legal) with
    | some r => r
    | none =>
      match risk_results with
      | r :: _ => r
      | [] => ⟨none, none, []⟩
  let all_tags := risk_results.foldl (fun acc r => acc ++ r.tags) []
  let groups := all_tags.foldl
    (fun acc t =>
      if t.name = "" then acc
      else upd_assoc t.name [] (fun l => l ++ [t]) acc)
    []
  let consensus_tags := groups.filterMap (fun p =>
    match p.2 with
    | [] => none
    | t :: ts =>
      if (t :: ts).length ≥ 2
      then some (first_min_by (fun x => tag_grade_priority x.grade) t ts)
      else none)
  { social := selected.social
  , legal := selected.legal
  , tags := consensus_tags
  , burn_risk := calculate_burn_risk risk_map consensus_tags }

/-! ## Pipeline start guard (`store.py` lines 106–127, `app.py`
lines 524–541) -/

/-- The per-project store record, restricted to the fields the start guard
touches. -/
structure Project where
  status : String
  analysis_started : Bool
  current_iteration : Nat
  total_iterations : Nat
deriving DecidableEq, Repr

/-- The typed store errors (`ProjectNotFoundError`,
`PipelineAlreadyRunningError`). -/
inductive StoreError where
  | projectNotFound
  | pipelineAlreadyRunning
deriving DecidableEq, Repr

/-- `ProjectStore.mark_pipeline_started`: raise the typed conflict when the
project is already `analyzing`, else transition it to `analyzing`. The
argument is the stored record (`none` = unknown project id). -/
def mark_pipeline_started (stored : Option Project) : Except StoreError Project :=
  match stored with
  | none => Except.error StoreError.projectNotFound
  | some project =>
    if project.analysis_started && project.status == "analyzing" then
      Except.error StoreError.pipelineAlreadyRunning
    else
      Except.ok { project with
        analysis_started := true
        status := "analyzing"
        current_iteration := 0
        total_iterations := max project.total_iterations 1 }

/-- The HTTP reply of `POST /projects/{id}/analyze`. -/
inductive StartAnalysisReply where
  | notFound404
  | conflict409
  | accepted (updated : Project)
deriving DecidableEq, Repr

/-- The `start_analysis` route (`app.py` lines 524–541): surface the typed
store errors as 404/409 and schedule `AnalysisPipeline.run` as a
background task only on success. The boolean is `true` exactly when the
pipeline task was scheduled (i.e. when pipeline steps will run). -/
def start_analysis (stored : Option Project) : StartAnalysisReply × Bool :=
  match stored with
  | none => (StartAnalysisReply.notFound404, false)
  | some project =>
    match mark_pipeline_started (some project) with
    | Except.error StoreError.pipelineAlreadyRunning => (StartAnalysisReply.conflict409, false)
    | Except.error StoreError.projectNotFound => (StartAnalysisReply.notFound404, false)
    | Except.ok updated => (StartAnalysisReply.accepted updated, true)

/-! ## Concrete fixtures used by the evaluation theorems -/

/-- A run whose social grade is `B`. -/
def run_social_b : RiskResult :=
  ⟨some ⟨some "B", some "理由1", []⟩, none, []⟩

/-- A run whose social grade is `D`. -/
def run_social_d : RiskResult :=
  ⟨some ⟨some "D", some "理由2", []⟩, none, []⟩

/-- Tag `X` graded `B` (as emitted by run 1). -/
def tag_x_b : RiskTag :=
  ⟨"X", some "B", some "理由B", some "表現B", some "00:10", none, []⟩

/-- Tag `X` graded `D` (as emitted by run 3). -/
def tag_x_d : RiskTag :=
  ⟨"X", some "D", some "理由D", some "表現D", some "00:30", none, []⟩

/-- Quorum-vote run 1: tag `X` with grade `B`. -/
def quorum_run_1 : RiskResult := ⟨none, none, [tag_x_b]⟩

/-- Quorum-vote run 2: tag `X` absent. -/
def quorum_run_2 : RiskResult := ⟨none, none, []⟩

/-- Quorum-vote run 3: tag `X` with grade `D`. -/
def quorum_run_3 : RiskResult := ⟨none, none, [tag_x_d]⟩

/-- A run whose legal grade is the judgement enumeration's most severe
value `"抵触している"`. -/
def run_legal_violating : RiskResult :=
  ⟨none, some ⟨some "抵触している", some "法務理由", []⟩, []⟩

/-- Findings-union run 1: one social finding with detail `表現a`. -/
def findings_run_1 : RiskResult :=
  ⟨some ⟨some "B", some "社会理由", [⟨"00:01", "表現a"⟩]⟩
  , some ⟨some "抵触していない", some "法務理由", []⟩, []⟩

/-- Findings-union run 2: one social finding with detail `表現b`. -/
def findings_run_2 : RiskResult :=
  ⟨some ⟨some "B", some "社会理由", [⟨"00:02", "表現b"⟩]⟩
  , some ⟨some "抵触していない", some "法務理由", []⟩, []⟩

/-- A merged tag carrying run-time weight 5. -/
def burn_tag_five : RiskTag :=
  ⟨"タグ甲", some "C", some "理由甲", none, none, some 5, []⟩

/-- A merged tag carrying run-time weight 3. -/
def burn_tag_three : RiskTag :=
  ⟨"タグ乙", some "C", some "理由乙", none, none, some 3, []⟩

/-! ## Claim theorems -/

/-- C1. The claim states the aggregated top-level social grade equals the
maximum of the runs' grades under `A<B<C<D<E`. The `RiskAssessor`
aggregator does return the maximum (`D` for runs graded `B` and `D`), but
the live pipeline aggregator (`pipeline.py` lines 216–236), whose priority
map `{"S":0,"A":1,"B":2,"C":3}` leaves `D` and `E` unranked (99), selects
the `B`-graded run: its aggregated social grade is `B`, strictly less
severe than run 2's `D` under the program's own `GRADE_SCORE_MAP`
ordering. -/
theorem pipeline_social_grade_understates_severity :
    (pipeline_aggregate (fun _ => none) [run_social_b, run_social_d]).social =
      some ⟨some "B", some "理由1", []⟩ ∧
    (aggregate_risk_results [run_social_b, run_social_d] [] [] [] none).map
      (fun a => a.social.grade) = some (some "D") ∧
    grade_to_score (some "B") < grade_to_score (some "D") := by
  refine ⟨by decide, by decide, by decide⟩

/-- C2. Under the pipeline's quorum merge (threshold 2), tag `X` observed
in runs 1 and 3 with grades `B` and `D` is promoted, but the vote
`min(tag_list, key=grade_priority)` keeps the `B`-graded payload because
`D` is unranked (priority 99) in `{"S":0,"A":1,"B":2,"C":3}`: the output
contains tag `X` with grade `B`, not the claimed maximum `D`. -/
theorem quorum_merge_keeps_b_not_d :
    (pipeline_aggregate (fun _ => none) [quorum_run_1, quorum_run_2, quorum_run_3]).tags =
      [tag_x_b] ∧
    tag_x_b.grade = some "B" ∧
    grade_to_score (some "B") < grade_to_score (some "D") := by
  refine ⟨by decide, by decide, by decide⟩

/-- C3. The claim states legal grades are mapped onto the 5-level scale by
a fixed enumeration so aggregation yields an in-scale legal grade. In the
code, `GRADE_SCORE_MAP` contains only `A..E`: every grade of the judgement
enumeration scores 0, so aggregating runs whose legal grade is the most
severe value `"抵触している"` produces the out-of-scale sentinel `"N/A"`. -/
theorem legal_grade_aggregates_to_not_applicable :
    (aggregate_risk_results [run_legal_violating, run_legal_violating, run_legal_violating]
        [] [] [] none).map (fun a => a.legal.grade) = some (some "N/A") ∧
    (["A", "B", "C", "D", "E"] : List String).contains "N/A" = false ∧
    (["抵触していない", "抵触する可能性がある", "抵触している"] : List String).contains "N/A" = false := by
  refine ⟨by decide, by decide, by decide⟩

/-- C4. The claim states aggregated `social.findings`/`legal.findings` are
the order-preserving dedup-union of all runs' findings. In the
`RiskAssessor` aggregator the merged sections keep run 1's findings
unchanged (run 2's detail `表現b` is dropped), and the pipeline aggregator
copies the selected run's sections wholesale — it computes the dedup set
of details (`detected_phrases_set`) and never attaches it. -/
theorem aggregated_findings_are_run_1_only :
    (aggregate_risk_results [findings_run_1, findings_run_2] [] [] [] none).map
      (fun a => a.social.findings) = some (some [⟨"00:01", "表現a"⟩]) ∧
    pipeline_detected_details [findings_run_1, findings_run_2] = ["表現a", "表現b"] ∧
    (pipeline_aggregate (fun _ => none) [findings_run_1, findings_run_2]).social =
      findings_run_1.social := by
  refine ⟨by decide, by decide, by decide⟩

/-- C5. When the stripped lengths of the two extraction results differ by
less than 5 % of `max(len1, len2, 1)`, both selectors return run 1 on the
no-arbitration branch, whatever the texts and whatever the arbitration
oracle would have replied. -/
theorem close_extractions_select_run_1 (run1 run2 : List Char) (gemini_choice : Option Int)
    (h : close_lengths (pystrip run1).length (pystrip run2).length = true) :
    select_best_transcription run1 run2 gemini_choice = (1, false) ∧
    select_best_ocr run1 run2 gemini_choice = (1, false) := by
  constructor
  · simp only [select_best_transcription, h, if_true]
  · simp only [select_best_ocr, h, if_true]

/-- Witness for C5 at the concrete pair `("a", "a")`. -/
theorem close_extractions_select_run_1_witness :
    close_lengths (pystrip ['a']).length (pystrip ['a']).length = true ∧
    select_best_transcription ['a'] ['a'] none = (1, false) ∧
    select_best_ocr ['a'] ['a'] none = (1, false) :=
  ⟨by decide
  , (close_extractions_select_run_1 ['a'] ['a'] none (by decide)).1
  , (close_extractions_select_run_1 ['a'] ['a'] none (by decide)).2⟩

/-- C7. For the merged tag set resolving to exactly the weights `[5, 3]`,
the burn-risk profile has average 4, grade `B` with the
`炎上リスク やや低い` ("somewhat low") label, `min = 3`, `max = 5`,
`count = 2`, and its `details` list is sorted ascending by weight. -/
theorem burn_risk_profile_for_weights_five_three :
    calculate_burn_risk (fun _ => none) [burn_tag_five, burn_tag_three] =
      BurnRisk.profile 2 4 "B" "炎上リスク やや低い" 3 5
        [⟨"タグ乙", 3, "炎上リスク 中程度", "tag", none, some "理由乙", none⟩
        , ⟨"タグ甲", 5, "炎上リスク 非常に低い", "tag", none, some "理由甲", none⟩] ∧
    List.Chain' (fun a b : BurnEntry => a.risk ≤ b.risk)
      [⟨"タグ乙", 3, "炎上リスク 中程度", "tag", none, some "理由乙", none⟩
      , ⟨"タグ甲", 5, "炎上リスク 非常に低い", "tag", none, some "理由甲", none⟩] := by
  refine ⟨by decide, ?_⟩
  refine List.chain'_cons.mpr ⟨by decide, ?_⟩
  exact List.chain'_singleton _

/-- C9. Starting analysis for a project already `analyzing` raises the
typed `PipelineAlreadyRunningError` in the store, and the start endpoint
surfaces it as a 409 conflict without scheduling the pipeline task, so no
pipeline step runs for the second attempt. -/
theorem double_start_is_reported_conflict (project : Project)
    (hstatus : project.status = "analyzing") (hstarted : project.analysis_started = true) :
    mark_pipeline_started (some project) = Except.error StoreError.pipelineAlreadyRunning ∧
    start_analysis (some project) = (StartAnalysisReply.conflict409, false) := by
  have hmark : mark_pipeline_started (some project) =
      Except.error StoreError.pipelineAlreadyRunning := by
    simp [mark_pipeline_started, hstatus, hstarted]
  exact ⟨hmark, by simp [start_analysis, hmark]⟩

/-- Witness for C9 at a concrete `analyzing` project. -/
theorem double_start_is_reported_conflict_witness :
    mark_pipeline_started (some ⟨"analyzing", true, 0, 3⟩) =
      Except.error StoreError.pipelineAlreadyRunning ∧
    start_analysis (some ⟨"analyzing", true, 0, 3⟩) =
      (StartAnalysisReply.conflict409, false) :=
  double_start_is_reported_conflict ⟨"analyzing", true, 0, 3⟩ rfl rfl

/-- C10. `aggregate_runs` maps the empty run list to the empty dict `{}`
(not a `RiskAssessmentResult`-shaped value) and never fails: the guard
makes the aggregator's non-empty precondition total at this entry point. -/
theorem aggregate_runs_empty_is_empty_dict :
    aggregate_runs [] = some AggregateRunsOutcome.emptyDict ∧
    ∀ runs : List RiskResult, (aggregate_runs runs).isSome = true := by
  constructor
  · rfl
  · intro runs
    cases runs with
    | nil => simp [aggregate_runs]
    | cons r rs => simp [aggregate_runs, aggregate_risk_results]

/-- C6. Every candidate emitted by the similarity scan carries grade `C`,
`D` or `E`, for any input texts, similarity oracle, incident corpus and
taxonomy entries — and so does every sub-tag it carries. -/
theorem similarity_scan_grades_at_least_c
    (transcript ocr_text : List Char) (sim : String → ℚ)
    (cases : List CaseRecord) (entries : List TagDefEntry)
    (t : RiskTag) (ht : t ∈ screen_with_cases transcript ocr_text sim cases entries) :
    (t.grade = some "C" ∨ t.grade = some "D" ∨ t.grade = some "E") ∧
    ∀ s ∈ t.related_sub_tags,
      s.grade = some "C" ∨ s.grade = some "D" ∨ s.grade = some "E" := by
  rw [screen_with_cases] at ht
  split at ht
  · simp at ht
  · simp only [] at ht
    split at ht
    · simp at ht
    · rcases List.mem_append.mp ht with hcase | hentry
      · rw [screen_case_matches] at hcase
        rcases List.mem_filterMap.mp hcase with ⟨record, _, heq⟩
        simp only at heq
        split at heq
        · exact absurd heq (by simp)
        · split at heq
          · rename_i hguard
            cases heq
            refine ⟨?_, ?_⟩
            · rcases hguard with h | h | h
              · exact Or.inl (by simp [h])
              · exact Or.inr (Or.inl (by simp [h]))
              · exact Or.inr (Or.inr (by simp [h]))
            · intro s hs
              simp only at hs
              split at hs
              · simp at hs
              · simp only [List.mem_singleton] at hs
                subst hs
                rcases hguard with h | h | h
                · exact Or.inl (by simp [h])
                · exact Or.inr (Or.inl (by simp [h]))
                · exact Or.inr (Or.inr (by simp [h]))
          · exact absurd heq (by simp)
      · rw [screen_tagdef_matches] at hentry
        rcases List.mem_filterMap.mp hentry with ⟨entry, _, heq⟩
        simp only at heq
        split at heq
        · exact absurd heq (by simp)
        · split at heq
          · exact absurd heq (by simp)
          · cases heq
            have hg : (if ratio_to_grade (sim (pystripS entry.definition)) = "C" ∨
                  ratio_to_grade (sim (pystripS entry.definition)) = "D" ∨
                  ratio_to_grade (sim (pystripS entry.definition)) = "E"
                then ratio_to_grade (sim (pystripS entry.definition)) else "C") = "C" ∨
                (if ratio_to_grade (sim (pystripS entry.definition)) = "C" ∨
                  ratio_to_grade (sim (pystripS entry.definition)) = "D" ∨
                  ratio_to_grade (sim (pystripS entry.definition)) = "E"
                then ratio_to_grade (sim (pystripS entry.definition)) else "C") = "D" ∨
                (if ratio_to_grade (sim (pystripS entry.definition)) = "C" ∨
                  ratio_to_grade (sim (pystripS entry.definition)) = "D" ∨
                  ratio_to_grade (sim (pystripS entry.definition)) = "E"
                then ratio_to_grade (sim (pystripS entry.definition)) else "C") = "E" := by
              split
              · rename_i h
                exact h
              · exact Or.inl rfl
            refine ⟨?_, ?_⟩
            · rcases hg with h | h | h
              · exact Or.inl (by simp [h])
              · exact Or.inr (Or.inl (by simp [h]))
              · exact Or.inr (Or.inr (by simp [h]))
            · intro s hs
              simp only at hs
              split at hs
              · simp only [List.mem_singleton] at hs
                subst hs
                rcases hg with h | h | h
                · exact Or.inl (by simp [h])
                · exact Or.inr (Or.inl (by simp [h]))
                · exact Or.inr (Or.inr (by simp [h]))
              · simp at hs

/-- Witness for C6: a concrete corpus row whose similarity ratio is 7/10
produces grade `D` (with the same grade on its sub-tag). -/
theorem similarity_scan_grades_at_least_c_witness :
    ((⟨"タグA", some "D", some (case_reason "危険な表現" (mkRat 7 10))
      , some "危険な表現", some "N/A", none
      , [⟨"サブA", some "D", some (case_sub_reason "サブA" (mkRat 7 10))
         , some "危険な表現", some "N/A", none⟩]⟩ : RiskTag).grade = some "C" ∨
     (⟨"タグA", some "D", some (case_reason "危険な表現" (mkRat 7 10))
      , some "危険な表現", some "N/A", none
      , [⟨"サブA", some "D", some (case_sub_reason "サブA" (mkRat 7 10))
         , some "危険な表現", some "N/A", none⟩]⟩ : RiskTag).grade = some "D" ∨
     (⟨"タグA", some "D", some (case_reason "危険な表現" (mkRat 7 10))
      , some "危険な表現", some "N/A", none
      , [⟨"サブA", some "D", some (case_sub_reason "サブA" (mkRat 7 10))
         , some "危険な表現", some "N/A", none⟩]⟩ : RiskTag).grade = some "E") ∧
    ∀ s ∈ (⟨"タグA", some "D", some (case_reason "危険な表現" (mkRat 7 10))
      , some "危険な表現", some "N/A", none
      , [⟨"サブA", some "D", some (case_sub_reason "サブA" (mkRat 7 10))
         , some "危険な表現", some "N/A", none⟩]⟩ : RiskTag).related_sub_tags,
      s.grade = some "C" ∨ s.grade = some "D" ∨ s.grade = some "E" :=
  similarity_scan_grades_at_least_c ['a'] [] (fun _ => mkRat 7 10)
    [⟨"危険な表現", "タグA", "サブA"⟩] [] _ (by decide)

/-! ## Order-independence of the keyword scan (C8) -/

/-- Every token produced by `pysplit` is free of whitespace characters. -/
theorem pysplit_no_ws (l : List Char) :
    ∀ w ∈ pysplit l, ∀ c ∈ w, c.isWhitespace = false := by
  induction l using pysplit.induct with
  | case1 => intro w hw; simp [pysplit] at hw
  | case2 c cs hws ih =>
    intro w hw
    rw [pysplit, if_pos hws] at hw
    exact ih w hw
  | case3 c cs hws ih =>
    intro w hw
    rw [pysplit, if_neg hws] at hw
    rcases List.mem_cons.mp hw with hw | hw
    · subst hw
      intro d hd
      rcases List.mem_cons.mp hd with hd | hd
      · subst hd
        simpa using hws
      · have := List.mem_takeWhile_imp hd
        simpa using this
    · exact ih w hw

/-- `Char.toLower` maps no character other than `'\n'` to `'\n'`. -/
theorem toLower_eq_newline {c : Char} (h : Char.toLower c = '\n') : c = '\n' := by
  unfold Char.toLower at h
  by_cases hc : c.toNat ≥ 65 ∧ c.toNat ≤ 90
  · rw [if_pos hc] at h
    exfalso
    have hv : (c.toNat + 32).isValidChar := by left; omega
    have h2 : (Char.ofNat (c.toNat + 32)).toNat = c.toNat + 32 := by
      rw [Char.ofNat, dif_pos hv]
      rfl
    rw [h] at h2
    have h3 : ('\n').toNat = 10 := by decide
    omega
  · rwa [if_neg hc] at h

/-- Lowercasing a whitespace-free token cannot introduce a newline. -/
theorem no_newline_in_lower {w : List Char}
    (hw : ∀ c ∈ w, c.isWhitespace = false) : '\n' ∉ lower w := by
  intro hmem
  rcases List.mem_map.mp hmem with ⟨c, hc, hlow⟩
  have : c = '\n' := toLower_eq_newline hlow
  subst this
  have := hw _ hc
  simp [Char.isWhitespace] at this

/-- A needle avoiding `c` that is a prefix of `u ++ c :: v` is a prefix
of `u`. -/
theorem take_of_append_cons {w u v : List Char} {c : Char}
    (hc : c ∉ w) (h : w <+: u ++ c :: v) : w <+: u := by
  induction u generalizing w with
  | nil =>
    cases w with
    | nil => exact ⟨[], rfl⟩
    | cons y w' =>
      exfalso
      rcases h with ⟨t, ht⟩
      rw [List.nil_append, List.cons_append] at ht
      have hy : y = c := (List.cons.injEq _ _ _ _).mp ht |>.1
      exact hc (by simp [hy])
  | cons x u' ih =>
    cases w with
    | nil => exact ⟨x :: u', rfl⟩
    | cons y w' =>
      rcases h with ⟨t, ht⟩
      rw [List.cons_append, List.cons_append] at ht
      have hx : y = x := (List.cons.injEq _ _ _ _).mp ht |>.1
      have htail : w' ++ t = u' ++ c :: v := (List.cons.injEq _ _ _ _).mp ht |>.2
      have hc' : c ∉ w' := fun hm => hc (List.mem_cons_of_mem _ hm)
      rcases ih hc' ⟨t, htail⟩ with ⟨t', ht'⟩
      exact ⟨t', by rw [List.cons_append, ht', hx]⟩

/-- Splitting lemma, forward worker: an occurrence of a needle avoiding
`c` inside `u ++ c :: v` lies inside `u` or inside `v`. -/
theorem sub_split_aux {w v : List Char} {c : Char} (hc : c ∉ w) :
    ∀ (s u t : List Char), s ++ w ++ t = u ++ c :: v → w <:+: u ∨ w <:+: v := by
  intro s
  induction s with
  | nil =>
    intro u t hst
    rw [List.nil_append] at hst
    have hp : w <+: u ++ c :: v := ⟨t, hst⟩
    rcases take_of_append_cons hc hp with ⟨t', ht'⟩
    exact Or.inl ⟨[], t', by simpa using ht'⟩
  | cons a s' ih =>
    intro u t hst
    cases u with
    | nil =>
      rw [List.nil_append] at hst
      rw [List.cons_append, List.cons_append] at hst
      have hav : s' ++ w ++ t = v := (List.cons.injEq _ _ _ _).mp hst |>.2
      exact Or.inr ⟨s', t, hav⟩
    | cons b u' =>
      rw [List.cons_append, List.cons_append, List.cons_append] at hst
      have htail : s' ++ w ++ t = u' ++ c :: v := (List.cons.injEq _ _ _ _).mp hst |>.2
      rcases ih u' t htail with h | h
      · rcases h with ⟨s₂, t₂, h₂⟩
        exact Or.inl ⟨b :: s₂, t₂, by rw [List.cons_append, List.cons_append, h₂]⟩
      · exact Or.inr h

/-- Splitting lemma: a needle that avoids the separator `c` occurs in
`u ++ c :: v` exactly when it occurs in `u` or in `v`. -/
theorem sub_of_append_cons_iff {w u v : List Char} {c : Char} (hc : c ∉ w) :
    w <:+: u ++ c :: v ↔ w <:+: u ∨ w <:+: v := by
  constructor
  · rintro ⟨s, t, hst⟩
    exact sub_split_aux hc s u t hst
  · rintro (⟨s, t, hst⟩ | ⟨s, t, hst⟩)
    · exact ⟨s, t ++ c :: v, by rw [← hst]; simp [List.append_assoc]⟩
    · exact ⟨u ++ c :: s, t, by rw [← hst]; simp [List.append_assoc]⟩

/-- `find?` only depends on the pointwise values of its predicate. -/
theorem find?_congr' {α : Type} {p q : α → Bool} {l : List α}
    (h : ∀ x ∈ l, p x = q x) : l.find? p = l.find? q := by
  induction l with
  | nil => rfl
  | cons x xs ih =>
    rw [List.find?_cons, List.find?_cons, h x (by simp)]
    cases hq : q x
    · exact ih (fun y hy => h y (List.mem_cons_of_mem _ hy))
    · rfl

/-- `filterMap` only depends on the pointwise values of its function. -/
theorem filterMap_congr' {α β : Type} {f g : α → Option β} {l : List α}
    (h : ∀ x ∈ l, f x = g x) : l.filterMap f = l.filterMap g := by
  induction l with
  | nil => rfl
  | cons x xs ih =>
    rw [List.filterMap_cons, List.filterMap_cons, h x (by simp)]
    have ht := ih (fun y hy => h y (List.mem_cons_of_mem _ hy))
    cases g x
    · exact ht
    · rw [ht]

/-- The lowercased combined text splits around the (lowercase-invariant)
newline separator. -/
theorem lower_combined_eq (a b : List Char) :
    lower (a ++ '\n' :: b) = lower a ++ '\n' :: lower b := by
  have hnl : Char.toLower '\n' = '\n' := by decide
  simp [lower, hnl]

/-- The per-keyword match test gives the same answer on the two
concatenation orders of the combined text, for whitespace-free keywords. -/
theorem kw_match_swap {kw : List Char} (a b : List Char)
    (hkw : ∀ c ∈ kw, c.isWhitespace = false) :
    (!kw.isEmpty && decide (lower kw <:+: lower (a ++ '\n' :: b))) =
    (!kw.isEmpty && decide (lower kw <:+: lower (b ++ '\n' :: a))) := by
  have hnl : '\n' ∉ lower kw := no_newline_in_lower hkw
  have h1 : lower kw <:+: lower (a ++ '\n' :: b) ↔
      lower kw <:+: lower a ∨ lower kw <:+: lower b := by
    rw [lower_combined_eq]
    exact sub_of_append_cons_iff hnl
  have h2 : lower kw <:+: lower (b ++ '\n' :: a) ↔
      lower kw <:+: lower b ∨ lower kw <:+: lower a := by
    rw [lower_combined_eq]
    exact sub_of_append_cons_iff hnl
  have : (lower kw <:+: lower (a ++ '\n' :: b)) ↔
      (lower kw <:+: lower (b ++ '\n' :: a)) := by
    rw [h1, h2]
    exact Or.comm
  rw [decide_eq_decide.mpr this]

/-- Every keyword extracted from a definition is whitespace-free. -/
theorem extract_keywords_no_ws (definition : List Char) :
    ∀ kw ∈ extract_keywords definition, ∀ c ∈ kw, c.isWhitespace = false := by
  intro kw hkw
  rw [extract_keywords] at hkw
  exact pysplit_no_ws _ kw (List.mem_filter.mp hkw).1

/-- `find_keyword` is invariant under swapping the two texts of the
combined input. -/
theorem find_keyword_swap (a b definition : List Char) :
    find_keyword (lower (a ++ '\n' :: b)) (extract_keywords definition) =
    find_keyword (lower (b ++ '\n' :: a)) (extract_keywords definition) := by
  exact find?_congr' (fun kw hkw => kw_match_swap a b (extract_keywords_no_ws definition kw hkw))

/-- C8. The keyword scan is order-independent over its two input texts:
scanning `"A\nB"` and scanning `"B\nA"` produce identical match lists (in
particular the same tag and sub-tag names), for every taxonomy. -/
theorem keyword_scan_order_independent (tag_structure : List TagDef)
    (transcript ocr_text : List Char) :
    scan_tag_matches tag_structure transcript ocr_text =
    scan_tag_matches tag_structure ocr_text transcript := by
  rw [scan_tag_matches, scan_tag_matches, scan_core, scan_core]
  refine filterMap_congr' (fun tag _ => ?_)
  rw [scan_tag_entry, scan_tag_entry, find_keyword_swap transcript ocr_text]
  have hsubs : tag.sub_tags.filterMap
      (scan_sub_entry (lower (transcript ++ '\n' :: ocr_text)) tag.risk) =
      tag.sub_tags.filterMap
      (scan_sub_entry (lower (ocr_text ++ '\n' :: transcript)) tag.risk) := by
    refine filterMap_congr' (fun sub _ => ?_)
    rw [scan_sub_entry, scan_sub_entry, find_keyword_swap transcript ocr_text]
  rw [hsubs]
